import Mathlib

/-
Verification of the Choices widget core (src/assets/scripts/src/choices.js)
against its natural-language specification.

The controller logic (event handlers, addItem / removeItem / render and
friends) is translated directly from choices.js.  The store, the reducers,
the action creators and the debounce utility are imported by choices.js
from modules that are not part of the source tree (./store/index.js,
./actions/index, ./lib/utils.js); those parts are modelled from the
specification and are marked as such in their doc comments.

JavaScript reference identity of the state tree and of its three
collections (used by the renderer dirty checks) is modelled by explicit
version counters: a reducer that handles an action returns a fresh
collection instance, which we model by bumping that collection's version;
a reducer that ignores an action returns the same instance (version kept).
-/

namespace Choices

/-- An item record, as appended by the items reducer (spec section 3). -/
structure Item where
  id : Nat
  value : String
  label : String
  optionId : Int
  active : Bool
  selected : Bool
deriving DecidableEq, Repr

/-- An option record (named `ChoiceOption` because `Option` is taken). -/
structure ChoiceOption where
  id : Nat
  value : String
  label : String
  groupId : Int
  disabled : Bool
  selected : Bool
  active : Bool
deriving DecidableEq, Repr

/-- A group record (spec section 3). -/
structure Group where
  id : Int
  value : String
  active : Bool
  disabled : Bool
deriving DecidableEq, Repr

/-- Modelled from the spec: the action vocabulary built by the action
creators of ./actions/index (not in the source tree).  `filterOptions`
carries the ids of the options present in the ranked search result. -/
inductive Action where
  | addItem (value label : String) (id : Nat) (optionId : Int)
  | removeItem (id : Nat) (optionId : Int)
  | selectItem (id : Nat) (selected : Bool)
  | addOption (value label : String) (id : Nat) (groupId : Int) (disabled : Bool)
  | filterOptions (results : List Nat)
  | activateOptions
  | addGroup (value : String) (id : Int) (active disabled : Bool)
deriving DecidableEq, Repr

/-- Modelled from the spec: the items reducer (spec section 4.2).
`addItem` appends a new active, unselected item; `removeItem` soft-deletes
(sets `active := false` on) the matching item; `selectItem` sets the
`selected` flag on the matching item; other actions are identity. -/
def itemsReducer (items : List Item) (a : Action) : List Item :=
  match a with
  | .addItem v l id oid => items ++ [⟨id, v, l, oid, true, false⟩]
  | .removeItem id _ =>
      items.map (fun i => if i.id = id then { i with active := false } else i)
  | .selectItem id sel =>
      items.map (fun i => if i.id = id then { i with selected := sel } else i)
  | _ => items

/-- Modelled from the spec: the options reducer plus the cross-collection
effect coordinated by the Store (spec sections 4.2 and 4.3): a remove-item
action carrying `optionId ≠ -1` also unselects the matching option. -/
def optionsReducer (options : List ChoiceOption) (a : Action) : List ChoiceOption :=
  match a with
  | .addOption v l id gid dis => options ++ [⟨id, v, l, gid, dis, false, true⟩]
  | .filterOptions results =>
      options.map (fun o => { o with active := decide (o.id ∈ results) })
  | .activateOptions =>
      options.map (fun o => if o.disabled then o else { o with active := true })
  | .removeItem _ oid =>
      if oid = -1 then options
      else options.map (fun o => if (o.id : Int) = oid then { o with selected := false } else o)
  | _ => options

/-- Modelled from the spec: the groups reducer (spec section 4.2). -/
def groupsReducer (groups : List Group) (a : Action) : List Group :=
  match a with
  | .addGroup v id act dis => groups ++ [⟨id, v, act, dis⟩]
  | _ => groups

/-- Does the items reducer handle this action (i.e. return a fresh
collection instance)? -/
def touchesItems : Action → Bool
  | .addItem _ _ _ _ => true
  | .removeItem _ _ => true
  | .selectItem _ _ => true
  | _ => false

/-- Does the options reducer (or the cross-collection remove effect)
handle this action? -/
def touchesOptions : Action → Bool
  | .addOption _ _ _ _ _ => true
  | .filterOptions _ => true
  | .activateOptions => true
  | .removeItem _ oid => decide (oid ≠ -1)
  | _ => false

/-- Does the groups reducer handle this action? -/
def touchesGroups : Action → Bool
  | .addGroup _ _ _ _ => true
  | _ => false

/-- Modelled from the spec: the combined state tree held by the Store
(./store/index.js, not in the source tree).  The `…Ver` fields model
JavaScript reference identity of the collections and of the combined
tree; `stateVer` is bumped on every dispatch (the tree is replaced),
the collection versions only when the owning reducer handles the action. -/
structure StoreState where
  items : List Item
  options : List ChoiceOption
  groups : List Group
  itemsVer : Nat
  optionsVer : Nat
  groupsVer : Nat
  stateVer : Nat
deriving DecidableEq, Repr

/-- Modelled from the spec: `Store.dispatch` (spec section 4.3) — reduces
each sub-collection, replaces the combined state tree atomically. -/
def dispatch (s : StoreState) (a : Action) : StoreState :=
  { items := itemsReducer s.items a
    options := optionsReducer s.options a
    groups := groupsReducer s.groups a
    itemsVer := s.itemsVer + (if touchesItems a then 1 else 0)
    optionsVer := s.optionsVer + (if touchesOptions a then 1 else 0)
    groupsVer := s.groupsVer + (if touchesGroups a then 1 else 0)
    stateVer := s.stateVer + 1 }

/-- Modelled from the spec: selector `getItems`. -/
def getItems (s : StoreState) : List Item := s.items

/-- Modelled from the spec: selector `getItemsFilteredByActive`. -/
def getItemsFilteredByActive (s : StoreState) : List Item :=
  s.items.filter (fun i => i.active)

/-- Modelled from the spec: selector `getItemsReducedToValues` — the
active items' `value` fields in insertion order. -/
def getItemsReducedToValues (s : StoreState) : List String :=
  (getItemsFilteredByActive s).map (fun i => i.value)

/-- Modelled from the spec: selector `getOptionsFilteredByActive`. -/
def getOptionsFilteredByActive (s : StoreState) : List ChoiceOption :=
  s.options.filter (fun o => o.active)

/-- Modelled from the spec: selector `getGroupsFilteredByActive`. -/
def getGroupsFilteredByActive (s : StoreState) : List Group :=
  s.groups.filter (fun g => g.active)

/-- Modelled from the spec: selector `getOptionsFiltedBySelectable`
(the source spells it that way) — active, not disabled, not selected. -/
def getOptionsFiltedBySelectable (s : StoreState) : List ChoiceOption :=
  s.options.filter (fun o => o.active && !o.disabled && !o.selected)

/-- The type of the enhanced native element (choices.js line 120). -/
inductive ElType where
  | text
  | selectOne
  | selectMultiple
deriving DecidableEq, Repr

/-- A configuration callback field as seen through JavaScript truthiness
and `isType('Function', ·)`: falsy, a genuine function, or a truthy
non-function value. -/
inductive CallbackVal where
  | noVal
  | fnVal
  | nonFnVal
deriving DecidableEq, Repr

/-- Observable side effects of the controller methods: `console.error`
diagnostics, store dispatches, and lifecycle callback invocations. -/
inductive Eff where
  | error (msg : String)
  | dispatched (a : Action)
  | callbackAdd (id : Nat) (value : String)
  | callbackRemove (value : String)
deriving DecidableEq, Repr

/-- A node of the rebuilt dropdown: either a flat option element or a
group element together with its appended option children. -/
inductive DropNode where
  | optionNode (o : ChoiceOption)
  | groupNode (g : Group) (opts : List ChoiceOption)
deriving DecidableEq, Repr

/-- Content of the dropdown region after a rebuild: a list of appended
nodes, or the no-content notice (choices.js lines 1056-1068). -/
inductive DropdownContent where
  | nodes (ns : List DropNode)
  | notice (label : String)
deriving DecidableEq, Repr

/-- `renderGroups` (choices.js lines 974-992): for each group, collect the
passed options whose `groupId` matches; append a group element (with its
option children) only when that group has at least one such option. -/
def renderGroups (groups : List Group) (options : List ChoiceOption) : List DropNode :=
  groups.filterMap (fun g =>
    let groupOptions := options.filter (fun o => o.groupId = g.id)
    if 1 ≤ groupOptions.length then some (.groupNode g groupOptions) else none)

/-- `renderOptions` (choices.js lines 994-1003): append every option for a
single select; for other element types skip options already selected. -/
def renderOptions (options : List ChoiceOption) (ty : ElType) : List DropNode :=
  options.filterMap (fun o =>
    if ty = ElType.selectOne then some (.optionNode o)
    else if o.selected = false then some (.optionNode o)
    else none)

/-- The fragment built for the dropdown region (choices.js lines
1049-1053): grouped when at least one active group exists and the widget
is not searching, flat when at least one active option exists, otherwise
empty. -/
def dropdownFragment (s : StoreState) (searching : Bool) (ty : ElType) : List DropNode :=
  let activeGroups := getGroupsFilteredByActive s
  let activeOptions := getOptionsFilteredByActive s
  if 1 ≤ activeGroups.length ∧ searching = false then
    renderGroups activeGroups activeOptions
  else if 1 ≤ activeOptions.length then
    renderOptions activeOptions ty
  else []

/-- The dropdown content produced by a dirty option/group region
(choices.js lines 1036-1069): the built fragment when it has children,
otherwise the searching/no-options notice. -/
def renderDropdownRegion (s : StoreState) (searching : Bool) (ty : ElType) : DropdownContent :=
  let frag := dropdownFragment s searching ty
  if frag.length ≠ 0 then .nodes frag
  else .notice (if searching then "No results found" else "No options to select")

/-- The selectable options of a rebuilt dropdown, in document order: the
option template (choices.js line 876) marks an element
`data-option-selectable` exactly when the option is not disabled. -/
def selectableOf : List DropNode → List ChoiceOption
  | [] => []
  | .optionNode o :: rest =>
      (if o.disabled then [] else [o]) ++ selectableOf rest
  | .groupNode _ opts :: rest =>
      opts.filter (fun o => !o.disabled) ++ selectableOf rest

/-- JavaScript array indexing `arr[i]` with a possibly negative or
out-of-range index: `undefined` (here `none`) outside the bounds. -/
def listAtInt (l : List α) (i : Int) : Option α :=
  if 0 ≤ i then l.get? i.toNat else none

/-- The no-argument branch of `highlightOption` (choices.js lines
575-588), run after a dropdown rebuild: pick the element at the last
known highlight index when `options.length > highlightPosition`,
otherwise the last element; if that lookup produced `undefined`
(negative index), fall back to the first element.  Returns `none` only
when the selectable list is empty (lines 563, 590: nothing happens).
The source first strips the highlight class from every element and then
adds it to the single chosen element, so the result models the unique
highlighted option. -/
def restoreHighlight (options : List ChoiceOption) (pos : Int) : Option ChoiceOption :=
  if options.length = 0 then none
  else
    let el := if pos < (options.length : Int) then listAtInt options pos
              else options.getLast?
    match el with
    | some e => some e
    | none => options.head?

/-- The controller/renderer state around the store: configuration fields
consumed by the translated methods, the renderer's previous-state
snapshot (as versions), and the externally observable render output
(dropdown content, highlighted option, item list, control value). -/
structure Widget where
  store : StoreState
  elementType : ElType
  delimiter : String
  prependValue : String
  appendValue : String
  isSearching : Bool
  highlightPosition : Int
  callbackOnAddItem : CallbackVal
  callbackOnRemoveItem : CallbackVal
  prevStateVer : Option Nat
  prevItemsVer : Option Nat
  prevOptionsVer : Option Nat
  prevGroupsVer : Option Nat
  dropdown : DropdownContent
  highlighted : Option ChoiceOption
  listContent : List Item
  controlValue : String
deriving DecidableEq, Repr

/-- `render` (choices.js lines 1031-1085).  Outer dirty check: the state
tree reference changed.  Option/group region: rebuilt when the options or
groups reference changed and the element is a select; the rebuild clears
the dropdown, installs the fragment or notice, and restores the highlight
(only called when the fragment has children).  Item region: when the items
reference changed, writes the delimiter-joined active values into the
underlying control and rebuilds the item list.  Finally the previous
snapshot is updated to the current one. -/
def render (w : Widget) : Widget :=
  let cur := w.store
  if some cur.stateVer = w.prevStateVer then w
  else
    let optsDirty : Prop :=
      ¬(some cur.optionsVer = w.prevOptionsVer) ∨ ¬(some cur.groupsVer = w.prevGroupsVer)
    let isSelect : Prop :=
      w.elementType = ElType.selectMultiple ∨ w.elementType = ElType.selectOne
    let w1 :=
      if optsDirty ∧ isSelect then
        let content := renderDropdownRegion cur w.isSearching w.elementType
        let hl := match content with
          | .nodes frag => restoreHighlight (selectableOf frag) w.highlightPosition
          | .notice _ => none
        { w with dropdown := content, highlighted := hl }
      else w
    let w2 :=
      if ¬(some cur.itemsVer = w.prevItemsVer) then
        { w1 with
            controlValue := String.intercalate w.delimiter (getItemsReducedToValues cur)
            listContent := getItemsFilteredByActive cur }
      else w1
    { w2 with
        prevStateVer := some cur.stateVer
        prevItemsVer := some cur.itemsVer
        prevOptionsVer := some cur.optionsVer
        prevGroupsVer := some cur.groupsVer }

/-- A store dispatch followed by the synchronous render it triggers: the
render method is the store's single subscriber (choices.js line 1128). -/
def dispatchAndRender (w : Widget) (a : Action) : Widget :=
  render { w with store := dispatch w.store a }

/-- The argument passed to `removeItem`, as seen through JavaScript
truthiness and `isType('Object', ·)`: an item record, or anything falsy
or non-object. -/
inductive ItemArg where
  | objItem (i : Item)
  | notObj
deriving DecidableEq, Repr

/-- The argument passed to `removeItemsByValue`: a string (possibly
empty, which is falsy), or a truthy/falsy non-string. -/
inductive ValueArg where
  | strVal (s : String)
  | notStr
deriving DecidableEq, Repr

/-- The `passedValue` computed by `addItem` (choices.js lines 644,
648-656): the trimmed value, with the configured prepended/appended
values applied when they are truthy (non-empty). -/
def processedValue (value : String) (w : Widget) : String :=
  let passedValue0 := value.trim
  let passedValue1 :=
    if w.prependValue = "" then passedValue0 else w.prependValue ++ passedValue0
  if w.appendValue = "" then passedValue1 else passedValue1 ++ w.appendValue

/-- The `passedLabel` computed by `addItem` (choices.js line 645):
`label || passedValue` — the trimmed value when the label is absent or
falsy (empty). -/
def processedLabel (value : String) (label : Option String) : String :=
  match label with
  | some l => if l = "" then value.trim else l
  | none => value.trim

/-- The `passedOptionId` computed by `addItem` (choices.js line 646):
`optionId || -1` — a falsy (zero) option id becomes -1. -/
def processedOptionId (optionId : Int) : Int :=
  if optionId = 0 then -1 else optionId

/-- The add-item action built by `addItem` (choices.js lines 642-661),
with the id generated as `items.length + 1`
(`items ? items.length + 1 : 1` — `getItems` returns an array, which is
always truthy, so the first branch is taken). -/
def addActionFor (value : String) (label : Option String) (optionId : Int) (w : Widget) : Action :=
  .addItem (processedValue value w) (processedLabel value label)
    ((getItems w.store).length + 1) (processedOptionId optionId)

/-- The item record that the items reducer appends for the action built
by `addItem`. -/
def newItemFor (value : String) (label : Option String) (optionId : Int) (w : Widget) : Item :=
  { id := (getItems w.store).length + 1
    value := processedValue value w
    label := processedLabel value label
    optionId := processedOptionId optionId
    active := true
    selected := false }

/-- Effects of the callback block of `removeItem` (choices.js lines
694-697): the block reads
`if(!isType('Function', callback)) console.error(...); return;` — a
single-line `if` after which the `return` executes unconditionally, so
`callback(value)` on line 696 is unreachable: a truthy callback yields at
most the diagnostic, never an invocation. -/
def removeCallbackEffs (callback : CallbackVal) : List Eff :=
  match callback with
  | .noVal => []
  | .fnVal => []
  | .nonFnVal => [.error "callbackOnRemoveItem: Callback is not a function"]

/-- `removeItem` (choices.js lines 681-698).  A falsy or non-object
argument is reported via `console.error` and the method returns without
dispatching.  Otherwise the remove action is dispatched (triggering a
render) and the callback block runs (see `removeCallbackEffs`). -/
def removeItemM (arg : ItemArg) (callback : CallbackVal) (w : Widget) : Widget × List Eff :=
  match arg with
  | .notObj => (w, [.error "removeItem: No item object was passed to be removed"])
  | .objItem item =>
    let a := Action.removeItem item.id item.optionId
    let w1 := dispatchAndRender w a
    (w1, [.dispatched a] ++ removeCallbackEffs callback)

/-- One step of the `removeActiveItems` loop (choices.js lines 726-730):
remove the item when it is active and its id differs from the excluded
one. -/
def removeStep (excludedId : Nat) (acc : Widget × List Eff) (item : Item) : Widget × List Eff :=
  if item.active = true ∧ ¬(excludedId = item.id) then
    let r := removeItemM (.objItem item) acc.1.callbackOnRemoveItem acc.1
    (r.1, acc.2 ++ r.2)
  else acc

/-- `removeActiveItems` (choices.js lines 723-731): snapshot the active
items once, then remove each one whose id is not the excluded id. -/
def removeActiveItems (excludedId : Nat) (w : Widget) : Widget × List Eff :=
  (getItemsFilteredByActive w.store).foldl (removeStep excludedId) (w, [])

/-- Effects of the callback block of `addItem` (choices.js lines
667-674): run the callback when it is a function (it receives the
generated id and the original, unprocessed value), report it via
`console.error` when it is truthy but not a function. -/
def addCallbackEffs (callback : CallbackVal) (id : Nat) (value : String) : List Eff :=
  match callback with
  | .noVal => []
  | .fnVal => [.callbackAdd id value]
  | .nonFnVal => [.error "callbackOnAddItem: Callback is not a function"]

/-- `addItem` (choices.js lines 642-675): build and dispatch the add
action (triggering a render); for a single select, remove every other
active item; finally run the add callback block (see
`addCallbackEffs`). -/
def addItemM (value : String) (label : Option String) (optionId : Int)
    (callback : CallbackVal) (w : Widget) : Widget × List Eff :=
  let a := addActionFor value label optionId w
  let id := (getItems w.store).length + 1
  let w1 := dispatchAndRender w a
  let afterRemove :=
    if w.elementType = ElType.selectOne then removeActiveItems id w1
    else (w1, [])
  (afterRemove.1, [.dispatched a] ++ afterRemove.2 ++ addCallbackEffs callback id value)

/-- An `addItem` call with only a value, using the configured add
callback — the shape used by the text-input paths of the controller. -/
def addSimple (w : Widget) (v : String) : Widget :=
  (addItemM v none (-1) w.callbackOnAddItem w).1

/-- The removal loop of `removeItemsByValue` (choices.js lines 708-714),
as it would run: remove every active item whose value matches.  The
method never reaches it (see `removeItemsByValueM`). -/
def removeItemsByValueLoop (value : String) (w : Widget) : Widget × List Eff :=
  ((getItemsFilteredByActive w.store).filter (fun i => i.value = value)).foldl
    (fun acc item =>
      let r := removeItemM (.objItem item) acc.1.callbackOnRemoveItem acc.1
      (r.1, acc.2 ++ r.2))
    (w, [])

/-- `removeItemsByValue` (choices.js lines 705-715).  Line 706 reads
`if(!value || !isType('String', value)) console.error(...); return;` —
a single-line `if` statement followed by a `return` that is not inside
the `if`, so the `return` executes unconditionally and the removal loop
below it (lines 708-714, see `removeItemsByValueLoop`) is unreachable. -/
def removeItemsByValueM (v : ValueArg) (w : Widget) : Widget × List Eff :=
  let errs : List Eff :=
    match v with
    | .strVal s =>
        if s = "" then [.error "removeItemsByValue: No value was passed to be removed"]
        else []
    | .notStr => [.error "removeItemsByValue: No value was passed to be removed"]
  (w, errs)

/-- Modelled from the spec: the `debounce` utility of ./lib/utils.js (not
in the source tree; spec section 5): the returned wrapper owns a single
pending-timer slot, and each call through the wrapper clears that slot
and schedules the wrapped function at call time plus the delay
(cancellation by replacement). -/
structure DebounceWrapper where
  pending : Option Nat
deriving DecidableEq, Repr

/-- A call through a debounce wrapper: the previously pending execution
(if any) is discarded and a new one is scheduled at `now + wait`. -/
def debounceCall (d : DebounceWrapper) (now wait : Nat) : DebounceWrapper :=
  let _ := d.pending
  { pending := some (now + wait) }

/-- The search branch of `onKeyUp` (choices.js lines 323-342) for one
keystroke at time `now` with a non-empty input value and a non-empty
option list: `const handleFilter = debounce(..., 500)` creates a fresh
wrapper on every keystroke, and `handleFilter()` is the only call ever
made through that wrapper — so its cancellation clears nothing, and the
execution it schedules at `now + 500` joins the set of pending browser
timers without displacing any earlier one. -/
def onKeyUpSearchStep (timers : List Nat) (now : Nat) : List Nat :=
  let freshWrapper : DebounceWrapper := { pending := none }
  let called := debounceCall freshWrapper now 500
  timers ++ (match called.pending with
    | some t => [t]
    | none => [])

/-- The pending debounced-search timers after a burst of keystrokes at
the given times. -/
def scheduledTimers (keyTimes : List Nat) : List Nat :=
  keyTimes.foldl onKeyUpSearchStep []

/-- The number of `filterOptions` dispatches fired by the scheduled
timers: each pending timer fires and, when the input value is still
non-empty at execution time (lines 326-339), dispatches one filter
action. -/
def filterDispatchCount (keyTimes : List Nat) (inputNonEmptyAtFire : Bool) : Nat :=
  if inputNonEmptyAtFire then (scheduledTimers keyTimes).length else 0

/-- The empty store: no items, options or groups; version counters at
zero. -/
def emptyStore : StoreState :=
  { items := [], options := [], groups := []
    itemsVer := 0, optionsVer := 0, groupsVer := 0, stateVer := 0 }

/-- The widget as constructed (choices.js lines 17-130) before `init`
runs: default configuration (delimiter `,`, no prepend/append, the
default no-op function callbacks), empty previous snapshot (`{}`), empty
render output. -/
def baseWidget (ty : ElType) : Widget :=
  { store := emptyStore
    elementType := ty
    delimiter := ","
    prependValue := ""
    appendValue := ""
    isSearching := false
    highlightPosition := 0
    callbackOnAddItem := .fnVal
    callbackOnRemoveItem := .fnVal
    prevStateVer := none
    prevItemsVer := none
    prevOptionsVer := none
    prevGroupsVer := none
    dropdown := .nodes []
    highlighted := none
    listContent := []
    controlValue := "" }

/-- The widget after `init` (choices.js lines 1121-1144) with no preset
items: the initial `render()` call has run once. -/
def initWidget (ty : ElType) : Widget :=
  render (baseWidget ty)

/-- Is this action an add-item or remove-item dispatch? -/
def isItemAction : Action → Bool
  | .addItem _ _ _ _ => true
  | .removeItem _ _ => true
  | _ => false

/-- The round-trip serialization invariant of claim C1: the control's
value string equals the active items' values joined by the configured
delimiter. -/
abbrev serializedInv (w : Widget) : Prop :=
  w.controlValue = String.intercalate w.delimiter (getItemsReducedToValues w.store)

/-- Sanity of the renderer's previous-state snapshot: each recorded
previous version is at most the corresponding current version.  This
holds for every widget actually produced by the controller (the snapshot
only ever records versions the store has reached) and is preserved by
every dispatch and render. -/
def versOK (w : Widget) : Bool :=
  decide (w.prevStateVer.getD 0 ≤ w.store.stateVer) &&
  decide (w.prevItemsVer.getD 0 ≤ w.store.itemsVer)

/-- The dropdown content that claim C4 asserts, read literally: grouped
rendering whenever an active group exists and the widget is not
searching; else the flat rendering whenever an active option exists; else
the placeholder. -/
def claimedDropdownRegion (s : StoreState) (searching : Bool) (ty : ElType) : DropdownContent :=
  let activeGroups := getGroupsFilteredByActive s
  let activeOptions := getOptionsFilteredByActive s
  if 1 ≤ activeGroups.length ∧ searching = false then
    .nodes (renderGroups activeGroups activeOptions)
  else if 1 ≤ activeOptions.length then
    .nodes (renderOptions activeOptions ty)
  else
    .notice (if searching then "No results found" else "No options to select")

/-- The dropdown content per the amended claim C4: same case split for
which rendering is built, but when the built rendering has no children
(active groups none of whose member options are active, or a multiple
select whose active options are all already selected) the placeholder is
shown instead. -/
def amendedDropdownRegion (s : StoreState) (searching : Bool) (ty : ElType) : DropdownContent :=
  let activeGroups := getGroupsFilteredByActive s
  let activeOptions := getOptionsFilteredByActive s
  let placeholder : DropdownContent :=
    .notice (if searching then "No results found" else "No options to select")
  if 1 ≤ activeGroups.length ∧ searching = false then
    if renderGroups activeGroups activeOptions = [] then placeholder
    else .nodes (renderGroups activeGroups activeOptions)
  else if 1 ≤ activeOptions.length then
    if renderOptions activeOptions ty = [] then placeholder
    else .nodes (renderOptions activeOptions ty)
  else placeholder

/-- A store state with one active group that has no member options, as
produced by an empty `<optgroup>`: `addGroup` (choices.js lines 824-839)
always takes the `if(groupOptions)` branch because `Array.from` returns
an array (truthy even when empty) and dispatches the group as active. -/
def emptyGroupState : StoreState :=
  { items := [], options := [], groups := [⟨0, "Empty group", true, false⟩]
    itemsVer := 0, optionsVer := 1, groupsVer := 1, stateVer := 1 }

/-- The effect of one remove-item dispatch on the items collection:
soft-delete the item whose id matches.  Matches the items reducer case for
remove actions. -/
def deactOne (a : Nat) (j : Item) : Item :=
  if j.id = a then { j with active := false } else j

/-- Whether the `removeActiveItems` loop over the snapshot `L` with
excluded id `ex` issues a remove for the id of `j`: some snapshot entry is
active, has an id other than the excluded one, and shares the id of `j`. -/
def hitBy (ex : Nat) (L : List Item) (j : Item) : Bool :=
  L.any (fun i => i.active && !(ex == i.id) && (i.id == j.id))

/-- The accumulated effect of the whole `removeActiveItems` loop on one
item: soft-deleted exactly when some loop iteration removes its id. -/
def deactAll (ex : Nat) (L : List Item) (j : Item) : Item :=
  if hitBy ex L j then { j with active := false } else j

/-- A concrete selectable option, used to instantiate theorems. -/
def sampleOption1 : ChoiceOption :=
  { id := 1, value := "a", label := "Alpha", groupId := -1
    disabled := false, selected := false, active := true }

/-- A second concrete selectable option, used to instantiate theorems. -/
def sampleOption2 : ChoiceOption :=
  { id := 2, value := "b", label := "Beta", groupId := -1
    disabled := false, selected := false, active := true }

/-- A concrete active item, used to instantiate theorems. -/
def sampleItem : Item :=
  { id := 1, value := "a", label := "a", optionId := -1
    active := true, selected := false }

/-- A single-select widget already holding one active item with id 1, used
to instantiate theorems about `addItem` on a single select. -/
def singleSelectWidget : Widget :=
  { baseWidget ElType.selectOne with
      store := { emptyStore with items := [sampleItem], itemsVer := 1, stateVer := 1 } }

/-! Helper lemmas about the renderer and the controller methods. -/

lemma render_store (w : Widget) : (render w).store = w.store := by
  rw [render]
  split
  · rfl
  · dsimp only
    split
    · split <;> rfl
    · split <;> rfl

lemma render_delimiter (w : Widget) : (render w).delimiter = w.delimiter := by
  rw [render]
  split
  · rfl
  · dsimp only
    split
    · split <;> rfl
    · split <;> rfl

lemma render_prev_of_dirty (w : Widget) (h : ¬ some w.store.stateVer = w.prevStateVer) :
    (render w).prevStateVer = some w.store.stateVer := by
  rw [render, if_neg h]

lemma render_prevItems_of_dirty (w : Widget) (h : ¬ some w.store.stateVer = w.prevStateVer) :
    (render w).prevItemsVer = some w.store.itemsVer := by
  rw [render, if_neg h]

lemma render_controlValue_of_dirty (w : Widget)
    (hd : ¬ some w.store.stateVer = w.prevStateVer)
    (hi : ¬ some w.store.itemsVer = w.prevItemsVer) :
    (render w).controlValue
      = String.intercalate w.delimiter (getItemsReducedToValues w.store) := by
  rw [render, if_neg hd]
  dsimp only
  rw [if_pos hi]

/-- C3: render is idempotent — calling `render` a second time with no
store dispatch in between leaves the whole widget (dropdown content,
highlighted option, item list, control value, previous snapshot)
unchanged, because the second call's reference-equality dirty check
against the previous snapshot finds the state tree unchanged. -/
theorem c3_render_idempotent (w : Widget) : render (render w) = render w := by
  by_cases h : some w.store.stateVer = w.prevStateVer
  · have h1 : render w = w := by rw [render, if_pos h]
    rw [h1, h1]
  · have h2 : some (render w).store.stateVer = (render w).prevStateVer := by
      rw [render_store, render_prev_of_dirty w h]
    rw [render, if_pos h2]

-- C4
lemma frag_content_eq (frag : List DropNode) (n : String) :
    (if frag.length ≠ 0 then DropdownContent.nodes frag else .notice n)
      = (if frag = [] then .notice n else .nodes frag) := by
  cases frag <;> simp

/-- C4 (amended): when the option/group region is rebuilt, the case split
of the claim selects which rendering is built (grouped when an active
group exists and not searching, else flat when an active option exists),
but the built rendering is shown only when it has children; when it is
empty — active groups none of whose member options qualify, or a multiple
select whose active options are all selected — the placeholder is shown
instead ("No results found" when searching, "No options to select"
otherwise). -/
theorem c4_dropdown_region_amended (s : StoreState) (searching : Bool) (ty : ElType) :
    renderDropdownRegion s searching ty = amendedDropdownRegion s searching ty := by
  unfold renderDropdownRegion amendedDropdownRegion dropdownFragment
  dsimp only
  split
  · exact frag_content_eq _ _
  · split
    · exact frag_content_eq _ _
    · simp

/-- C4 (counterexample): with one active group and no options, not
searching, the claim as stated says the grouped rendering (an empty node
list) is produced, but the code produces the "No options to select"
placeholder because the built fragment has no children. -/
theorem c4_dropdown_region_cex :
    renderDropdownRegion emptyGroupState false .selectMultiple ≠
      claimedDropdownRegion emptyGroupState false .selectMultiple := by decide

-- C5
/-- C5: after a rebuild of a non-empty selectable option list, the
restored highlight is exactly one option of the list: the one at the last
known highlight index when that index is in bounds, the last element when
the index is at or past the end, and the first element when the
(non-empty) list is indexed out of range below zero. -/
theorem c5_highlight_restore (opts : List ChoiceOption) (pos : Int) (h : opts ≠ []) :
    ∃ e, restoreHighlight opts pos = some e ∧ e ∈ opts
      ∧ (0 ≤ pos → pos < (opts.length : Int) → opts.get? pos.toNat = some e)
      ∧ ((opts.length : Int) ≤ pos → opts.getLast? = some e)
      ∧ (pos < 0 → opts.head? = some e) := by
  have hlen : ¬ opts.length = 0 := by
    simpa [List.length_eq_zero] using h
  rw [restoreHighlight, if_neg hlen]
  by_cases h1 : pos < (opts.length : Int)
  · by_cases h2 : 0 ≤ pos
    · have hlt : pos.toNat < opts.length := by omega
      refine ⟨opts.get ⟨pos.toNat, hlt⟩, ?_, List.get_mem _ _ _, ?_, ?_, ?_⟩
      · rw [if_pos h1]
        dsimp only
        rw [listAtInt, if_pos h2, List.get?_eq_get hlt]
      · intro _ _
        exact List.get?_eq_get hlt
      · intro hc; omega
      · intro hc; omega
    · have hneg : pos < 0 := by omega
      have hhead : opts.head? = some (opts.head h) := List.head?_eq_head h
      refine ⟨opts.head h, ?_, List.head_mem h, ?_, ?_, ?_⟩
      · rw [if_pos h1]
        dsimp only
        rw [listAtInt, if_neg h2]
        exact hhead
      · intro hc; omega
      · intro hc; omega
      · intro _; exact hhead
  · have hlast : opts.getLast? = some (opts.getLast h) := List.getLast?_eq_getLast _ h
    refine ⟨opts.getLast h, ?_, List.getLast_mem h, ?_, ?_, ?_⟩
    · rw [if_neg h1]
      dsimp only
      rw [hlast]
    · intro _ hc; omega
    · intro _; exact hlast
    · intro hc
      have : (0 : Int) ≤ opts.length := by positivity
      omega

-- C7
/-- C7 (code bug, evaluated at the failing input): two keystrokes at
t = 0ms and t = 100ms — both inside one 500ms debounce window, with the
input value non-empty throughout — produce two `filterOptions` dispatches
(one per keystroke, at t = 500ms and t = 600ms), not at most one: because
`onKeyUp` recreates the debounced wrapper on every keystroke, no
scheduled invocation is ever discarded. -/
theorem c7_debounce_code_bug :
    filterDispatchCount [0, 100] true = 2 ∧
      ¬ filterDispatchCount [0, 100] true ≤ 1 := by decide

lemma debounced_search_fires_per_keystroke (keyTimes : List Nat) :
    filterDispatchCount keyTimes true = keyTimes.length := by
  have h : ∀ (acc : List Nat),
      (keyTimes.foldl onKeyUpSearchStep acc).length = acc.length + keyTimes.length := by
    induction keyTimes with
    | nil => intro acc; simp
    | cons t ts ih =>
        intro acc
        simp only [List.foldl_cons, ih, onKeyUpSearchStep, debounceCall]
        simp [List.length_append]
        omega
  simp [filterDispatchCount, scheduledTimers, h []]

-- C8
/-- C8: `removeItemsByValue` returns before reaching its removal loop for
every argument — the guard's `return` executes unconditionally — so the
widget is unchanged and no action is dispatched by any call. -/
theorem c8_remove_items_by_value_noop (v : ValueArg) (w : Widget) :
    (removeItemsByValueM v w).1 = w ∧
      ∀ a : Action, Eff.dispatched a ∉ (removeItemsByValueM v w).2 := by
  refine ⟨rfl, ?_⟩
  intro a
  unfold removeItemsByValueM
  dsimp only
  cases v with
  | strVal s =>
      by_cases hs : s = "" <;> simp [hs]
  | notStr => simp

-- C10
/-- C10: for every call to `removeItem` with a valid item object and any
truthy callback (including a genuine function), the remove action is
applied to the store, but the callback is never invoked — the
unconditional `return` on line 695 precedes `callback(value)`. -/
theorem c10_remove_callback_never_runs (item : Item) (cb : CallbackVal) (w : Widget)
    (hcb : ¬ cb = CallbackVal.noVal) :
    (removeItemM (.objItem item) cb w).1.store.items
        = itemsReducer w.store.items (.removeItem item.id item.optionId)
      ∧ Eff.dispatched (.removeItem item.id item.optionId) ∈ (removeItemM (.objItem item) cb w).2
      ∧ ∀ v : String, Eff.callbackRemove v ∉ (removeItemM (.objItem item) cb w).2 := by
  refine ⟨?_, ?_, ?_⟩
  · show (dispatchAndRender w _).store.items = _
    rw [dispatchAndRender, render_store]
    rfl
  · simp [removeItemM, removeCallbackEffs]
  · intro v
    unfold removeItemM
    dsimp only
    cases cb <;> simp [removeCallbackEffs]

-- C6
/-- C6 (counterexample): calling `addItem` with a truthy non-function
callback emits the diagnostic, yet the add action has already been
dispatched — the store's item collection changes, contradicting the
claim that the operation aborts without mutating state. -/
theorem c6_invalid_args_cex :
    Eff.error "callbackOnAddItem: Callback is not a function" ∈
        (addItemM "a" none (-1) .nonFnVal (initWidget .text)).2
      ∧ (addItemM "a" none (-1) .nonFnVal (initWidget .text)).1.store.items ≠
        (initWidget .text).store.items := by decide

/-- C6 (amended): `removeItem` with a falsy/non-object item emits a
diagnostic and aborts without dispatching, leaving the widget unchanged;
but a truthy non-function add/remove lifecycle callback only emits a
diagnostic after the add/remove action has already been dispatched —
only the callback invocation is skipped, not the state mutation. -/
theorem c6_invalid_args_amended (cb : CallbackVal) (w : Widget) (item : Item) (v : String)
    (lbl : Option String) (oid : Int) :
    ((removeItemM .notObj cb w).1 = w
      ∧ (∀ a : Action, Eff.dispatched a ∉ (removeItemM .notObj cb w).2)
      ∧ Eff.error "removeItem: No item object was passed to be removed" ∈
          (removeItemM .notObj cb w).2)
    ∧ (Eff.error "callbackOnAddItem: Callback is not a function" ∈
          (addItemM v lbl oid .nonFnVal w).2
      ∧ Eff.dispatched (addActionFor v lbl oid w) ∈ (addItemM v lbl oid .nonFnVal w).2)
    ∧ (Eff.error "callbackOnRemoveItem: Callback is not a function" ∈
          (removeItemM (.objItem item) .nonFnVal w).2
      ∧ Eff.dispatched (.removeItem item.id item.optionId) ∈
          (removeItemM (.objItem item) .nonFnVal w).2) := by
  refine ⟨⟨rfl, ?_, ?_⟩, ⟨?_, ?_⟩, ⟨?_, ?_⟩⟩
  · intro a; simp [removeItemM, removeCallbackEffs]
  · simp [removeItemM, removeCallbackEffs]
  · simp [addItemM, addCallbackEffs]
  · simp [addItemM, addCallbackEffs]
  · simp [removeItemM, removeCallbackEffs]
  · simp [removeItemM, removeCallbackEffs]


lemma deactAll_id (ex : Nat) (L : List Item) (j : Item) : (deactAll ex L j).id = j.id := by
  unfold deactAll; split <;> rfl

lemma dispatchAndRender_items (w : Widget) (a : Action) :
    (dispatchAndRender w a).store.items = itemsReducer w.store.items a := by
  rw [dispatchAndRender, render_store]
  rfl

lemma removeItemM_items (item : Item) (cb : CallbackVal) (w : Widget) :
    (removeItemM (.objItem item) cb w).1.store.items
      = w.store.items.map (deactOne item.id) := by
  show (dispatchAndRender w _).store.items = _
  rw [dispatchAndRender_items]
  rfl

lemma deactAll_cons_hit (i : Item) (L' : List Item) (ex : Nat)
    (hact : i.active = true) (hex : ¬ ex = i.id) (j : Item) :
    deactAll ex L' (deactOne i.id j) = deactAll ex (i :: L') j := by
  by_cases hj : j.id = i.id
  · have hone : deactOne i.id j = { j with active := false } := by
      rw [deactOne, if_pos hj]
    have hhit : hitBy ex (i :: L') j = true := by
      simp only [hitBy, List.any_cons, Bool.or_eq_true]
      left
      simp [hact, hj.symm]
      exact fun hc => hex (hc.trans hj)
    rw [hone, deactAll, deactAll, hhit, if_pos rfl]
    split <;> rfl
  · have hone : deactOne i.id j = j := by rw [deactOne, if_neg hj]
    have hcons : hitBy ex (i :: L') j = hitBy ex L' j := by
      simp only [hitBy, List.any_cons]
      have hfalse : (i.id == j.id) = false :=
        beq_eq_false_iff_ne.mpr (fun h => hj h.symm)
      simp [hfalse]
    rw [hone, deactAll, deactAll, hcons]

lemma deactAll_cons_skip (i : Item) (L' : List Item) (ex : Nat)
    (hcond : ¬ (i.active = true ∧ ¬ ex = i.id)) (j : Item) :
    deactAll ex (i :: L') j = deactAll ex L' j := by
  have hcons : hitBy ex (i :: L') j = hitBy ex L' j := by
    simp only [hitBy, List.any_cons]
    rcases not_and_or.mp hcond with h | h
    · have hia : i.active = false := by
        cases hia : i.active
        · rfl
        · exact absurd hia h
      simp [hia]
    · have hex : ex = i.id := not_not.mp h
      simp [hex]
  rw [deactAll, deactAll, hcons]

lemma foldl_removeStep_items (ex : Nat) (L : List Item) :
    ∀ (w : Widget) (e : List Eff),
      ((L.foldl (removeStep ex) (w, e)).1).store.items
        = w.store.items.map (deactAll ex L) := by
  induction L with
  | nil =>
      intro w e
      rw [List.foldl_nil]
      have hid : w.store.items.map (deactAll ex []) = w.store.items.map id :=
        List.map_congr_left (fun j _ => by simp [deactAll, hitBy])
      rw [hid, List.map_id]
  | cons i L' ih =>
      intro w e
      rw [List.foldl_cons]
      by_cases hcond : i.active = true ∧ ¬ ex = i.id
      · rw [removeStep, if_pos hcond]
        dsimp only
        rw [ih, removeItemM_items, List.map_map]
        exact List.map_congr_left
          (fun j _ => deactAll_cons_hit i L' ex hcond.1 hcond.2 j)
      · rw [removeStep, if_neg hcond, ih]
        exact (List.map_congr_left
          (fun j _ => (deactAll_cons_skip i L' ex hcond j))).symm

lemma foldl_removeStep_effs_prefix (ex : Nat) (L : List Item) :
    ∀ (w : Widget) (e : List Eff),
      ∃ t, (L.foldl (removeStep ex) (w, e)).2 = e ++ t := by
  induction L with
  | nil => intro w e; exact ⟨[], by simp⟩
  | cons i L' ih =>
      intro w e
      rw [List.foldl_cons]
      by_cases hcond : i.active = true ∧ ¬ ex = i.id
      · rw [removeStep, if_pos hcond]
        dsimp only
        obtain ⟨t, ht⟩ := ih (removeItemM (.objItem i) w.callbackOnRemoveItem w).1
          (e ++ (removeItemM (.objItem i) w.callbackOnRemoveItem w).2)
        exact ⟨(removeItemM (.objItem i) w.callbackOnRemoveItem w).2 ++ t,
          by rw [ht, List.append_assoc]⟩
      · rw [removeStep, if_neg hcond]
        exact ih w e

lemma foldl_removeStep_effs_mem (ex : Nat) (L : List Item) :
    ∀ (w : Widget) (e : List Eff) (i : Item), i ∈ L → i.active = true → ¬ ex = i.id →
      Eff.dispatched (.removeItem i.id i.optionId) ∈ (L.foldl (removeStep ex) (w, e)).2 := by
  induction L with
  | nil => intro w e i hi; cases hi
  | cons a L' ih =>
      intro w e i hi hact hex
      rw [List.foldl_cons]
      rcases List.mem_cons.mp hi with rfl | hi'
      · rw [removeStep, if_pos ⟨hact, hex⟩]
        dsimp only
        obtain ⟨t, ht⟩ := foldl_removeStep_effs_prefix ex L' _ _
        rw [ht]
        simp [removeItemM, removeCallbackEffs]
      · by_cases hcond : a.active = true ∧ ¬ ex = a.id
        · rw [removeStep, if_pos hcond]
          dsimp only
          exact ih _ _ i hi' hact hex
        · rw [removeStep, if_neg hcond]
          exact ih _ _ i hi' hact hex

lemma addItemM_result (v : String) (lbl : Option String) (oid : Int)
    (cb : CallbackVal) (w : Widget) (hty : w.elementType = ElType.selectOne) :
    (addItemM v lbl oid cb w).1.store.items
      = (itemsReducer w.store.items (addActionFor v lbl oid w)).map
          (deactAll ((getItems w.store).length + 1)
            (getItemsFilteredByActive (dispatchAndRender w (addActionFor v lbl oid w)).store))
    ∧ ∀ i : Item, i ∈ getItemsFilteredByActive
          (dispatchAndRender w (addActionFor v lbl oid w)).store →
        ¬ ((getItems w.store).length + 1) = i.id →
        Eff.dispatched (.removeItem i.id i.optionId) ∈ (addItemM v lbl oid cb w).2 := by
  constructor
  · rw [addItemM]
    rw [if_pos hty]
    rw [removeActiveItems, foldl_removeStep_items, dispatchAndRender_items]
  · intro i hi hex
    have hact : i.active = true := (List.mem_filter.mp hi).2
    rw [addItemM]
    rw [if_pos hty]
    have hmem := foldl_removeStep_effs_mem ((getItems w.store).length + 1)
      (getItemsFilteredByActive (dispatchAndRender w (addActionFor v lbl oid w)).store)
      (dispatchAndRender w (addActionFor v lbl oid w)) [] i hi hact hex
    exact List.mem_append.mpr (Or.inl (List.mem_append.mpr (Or.inr hmem)))

lemma itemsReducer_addActionFor (v : String) (lbl : Option String) (oid : Int)
    (w : Widget) (items : List Item) :
    itemsReducer items (addActionFor v lbl oid w) = items ++ [newItemFor v lbl oid w] := rfl

lemma addItemM_map_id (v : String) (lbl : Option String) (oid : Int)
    (cb : CallbackVal) (w : Widget) :
    (addItemM v lbl oid cb w).1.store.items.map Item.id
      = w.store.items.map Item.id ++ [w.store.items.length + 1] := by
  by_cases hty : w.elementType = ElType.selectOne
  · rw [(addItemM_result v lbl oid cb w hty).1, List.map_map]
    have hcongr : List.map
        (Item.id ∘ deactAll ((getItems w.store).length + 1)
          (getItemsFilteredByActive (dispatchAndRender w (addActionFor v lbl oid w)).store))
        (itemsReducer w.store.items (addActionFor v lbl oid w))
        = List.map Item.id (itemsReducer w.store.items (addActionFor v lbl oid w)) :=
      List.map_congr_left (fun j _ => deactAll_id _ _ j)
    rw [hcongr, itemsReducer_addActionFor, List.map_append]
    rfl
  · rw [addItemM, if_neg hty]
    rw [dispatchAndRender_items, itemsReducer_addActionFor, List.map_append]
    rfl

lemma c2_addacc (vals : List String) :
    ∀ (w : Widget), w.store.items.map Item.id = List.range' 1 w.store.items.length →
      (vals.foldl addSimple w).store.items.map Item.id
        = List.range' 1 (w.store.items.length + vals.length) := by
  induction vals with
  | nil => intro w hw; rw [List.foldl_nil]; simpa using hw
  | cons v vs ih =>
      intro w hw
      rw [List.foldl_cons]
      have hmap : (addSimple w v).store.items.map Item.id
          = w.store.items.map Item.id ++ [w.store.items.length + 1] :=
        addItemM_map_id v none (-1) w.callbackOnAddItem w
      have hlen : (addSimple w v).store.items.length = w.store.items.length + 1 := by
        have hc := congrArg List.length hmap
        simpa using hc
      have hinv : (addSimple w v).store.items.map Item.id
          = List.range' 1 ((addSimple w v).store.items.length) := by
        rw [hmap, hw, hlen, List.range'_concat]
        have harith : 1 + 1 * w.store.items.length = w.store.items.length + 1 := by omega
        rw [harith]
      have hrec := ih _ hinv
      rw [hlen] at hrec
      rw [hrec, List.length_cons]
      congr 1
      omega

/-- C2: N sequential `addItem` calls starting from an empty item
collection assign the new items the ids 1, 2, ..., N exactly, in call
order (the id of the k-th added item is k). -/
theorem c2_id_monotonicity (vals : List String) (w : Widget) (h : w.store.items = []) :
    (vals.foldl addSimple w).store.items.map Item.id = List.range' 1 vals.length := by
  have h0 : w.store.items.map Item.id = List.range' 1 w.store.items.length := by
    rw [h]; rfl
  have hc := c2_addacc vals w h0
  rw [h] at hc
  simpa using hc

/-- C9: when the passed element is a single select, `addItem` dispatches
a remove-item action for every active item other than the newly added
one, and immediately afterwards the only active item is the new one
(stated for stores whose item ids are the canonical 1..n assigned by
`length + 1` generation, an invariant of all reachable states). -/
theorem c9_select_one_single_active (v : String) (lbl : Option String) (oid : Int) (cb : CallbackVal)
    (w : Widget) (hty : w.elementType = ElType.selectOne)
    (hids : w.store.items.map Item.id = List.range' 1 w.store.items.length) :
    ((addItemM v lbl oid cb w).1.store.items.filter (fun i => i.active)).map Item.id
        = [w.store.items.length + 1]
    ∧ ∀ i ∈ w.store.items, i.active = true →
        Eff.dispatched (.removeItem i.id i.optionId) ∈ (addItemM v lbl oid cb w).2 := by
  have hex_len : (getItems w.store).length = w.store.items.length := rfl
  have hlt : ∀ j : Item, j ∈ w.store.items → ¬ (w.store.items.length + 1) = j.id := by
    intro j hj hc
    have hmem : j.id ∈ w.store.items.map Item.id := List.mem_map_of_mem _ hj
    rw [hids] at hmem
    have hrange := List.mem_range'_1.mp hmem
    omega
  obtain ⟨hitems, heffs⟩ := addItemM_result v lbl oid cb w hty
  have hstore : (dispatchAndRender w (addActionFor v lbl oid w)).store.items
      = w.store.items ++ [newItemFor v lbl oid w] := by
    rw [dispatchAndRender_items, itemsReducer_addActionFor]
  have hsnap : getItemsFilteredByActive (dispatchAndRender w (addActionFor v lbl oid w)).store
      = (w.store.items ++ [newItemFor v lbl oid w]).filter (fun i => i.active) := by
    rw [getItemsFilteredByActive, hstore]
  constructor
  · rw [hitems, itemsReducer_addActionFor, List.map_append, List.filter_append]
    set ex := (getItems w.store).length + 1 with hex
    set snap := getItemsFilteredByActive
      (dispatchAndRender w (addActionFor v lbl oid w)).store with hsnapdef
    have hnil : (w.store.items.map (deactAll ex snap)).filter (fun i => i.active) = [] := by
      rw [List.filter_eq_nil_iff]
      intro x hx
      obtain ⟨j, hj, rfl⟩ := List.mem_map.mp hx
      by_cases hja : j.active = true
      · have hjsnap : j ∈ snap := by
          rw [hsnap]
          exact List.mem_filter.mpr ⟨List.mem_append_left _ hj, hja⟩
        have hhit : hitBy ex snap j = true := by
          rw [hitBy, List.any_eq_true]
          refine ⟨j, hjsnap, ?_⟩
          have h1 : (ex == j.id) = false := by
            rw [hex, hex_len]
            exact beq_eq_false_iff_ne.mpr (hlt j hj)
          simp [hja, h1]
        rw [deactAll, hhit]
        simp
      · have hjf : j.active = false := Bool.not_eq_true _ ▸ Bool.eq_false_iff.mpr hja
        rw [deactAll]
        split
        · simp
        · simp [hjf]
    have hnew : deactAll ex snap (newItemFor v lbl oid w) = newItemFor v lbl oid w := by
      have hhit : hitBy ex snap (newItemFor v lbl oid w) = false := by
        rw [hitBy, List.any_eq_false]
        intro i hisnap
        by_cases hid : i.id = ex
        · have h1 : (ex == i.id) = true := by
            rw [hid]
            exact beq_self_eq_true ex
          simp [h1]
        · have h2 : (i.id == (newItemFor v lbl oid w).id) = false := by
            have : (newItemFor v lbl oid w).id = ex := rfl
            rw [this]
            exact beq_eq_false_iff_ne.mpr hid
          simp [h2]
      rw [deactAll, hhit]
      simp
    rw [hnil, List.nil_append]
    rw [show List.map (deactAll ex snap) [newItemFor v lbl oid w]
        = [newItemFor v lbl oid w] from by rw [List.map_singleton, hnew]]
    rfl
  · intro i hi hact
    apply heffs
    · rw [hsnap]
      exact List.mem_filter.mpr ⟨List.mem_append_left _ hi, hact⟩
    · rw [hex_len]
      exact hlt i hi

lemma dispatch_itemsVer_of_item (s : StoreState) (a : Action) (ha : isItemAction a = true) :
    (dispatch s a).itemsVer = s.itemsVer + 1 := by
  cases a <;> simp [isItemAction] at ha <;> rfl

lemma step_serialized (w : Widget) (a : Action)
    (hver : versOK w = true) (ha : isItemAction a = true) :
    serializedInv (dispatchAndRender w a) ∧ versOK (dispatchAndRender w a) = true := by
  rw [versOK, Bool.and_eq_true, decide_eq_true_iff, decide_eq_true_iff] at hver
  obtain ⟨hv1, hv2⟩ := hver
  have hsv : (dispatch w.store a).stateVer = w.store.stateVer + 1 := rfl
  have hiv : (dispatch w.store a).itemsVer = w.store.itemsVer + 1 :=
    dispatch_itemsVer_of_item w.store a ha
  have hd : ¬ some ({ w with store := dispatch w.store a } : Widget).store.stateVer
      = ({ w with store := dispatch w.store a } : Widget).prevStateVer := by
    show ¬ some (dispatch w.store a).stateVer = w.prevStateVer
    rw [hsv]
    cases hp : w.prevStateVer with
    | none => simp
    | some x =>
        rw [hp] at hv1
        simp only [Option.getD_some] at hv1
        simp only [Option.some.injEq]
        omega
  have hi : ¬ some ({ w with store := dispatch w.store a } : Widget).store.itemsVer
      = ({ w with store := dispatch w.store a } : Widget).prevItemsVer := by
    show ¬ some (dispatch w.store a).itemsVer = w.prevItemsVer
    rw [hiv]
    cases hp : w.prevItemsVer with
    | none => simp
    | some x =>
        rw [hp] at hv2
        simp only [Option.getD_some] at hv2
        simp only [Option.some.injEq]
        omega
  constructor
  · show (dispatchAndRender w a).controlValue = _
    rw [dispatchAndRender]
    rw [render_controlValue_of_dirty _ hd hi, render_delimiter, render_store]
  · rw [dispatchAndRender, versOK, Bool.and_eq_true, decide_eq_true_iff, decide_eq_true_iff]
    constructor
    · rw [render_prev_of_dirty _ hd, render_store]
      simp
    · rw [render_prevItems_of_dirty _ hd, render_store]
      simp

/-- C1: after any sequence of add-item and remove-item dispatches, each
followed by the synchronous render it triggers, the value string written
to the underlying control equals the active items' values joined by the
configured delimiter — `getItemsReducedToValues().join(delimiter)` equals
the control's value, for every delimiter. -/
theorem c1_round_trip_serialization (acts : List Action) (w : Widget)
    (hver : versOK w = true) (hinv : serializedInv w)
    (ha : acts.all isItemAction = true) :
    serializedInv (acts.foldl dispatchAndRender w) := by
  induction acts generalizing w with
  | nil => exact hinv
  | cons a as ih =>
      rw [List.all_cons, Bool.and_eq_true] at ha
      obtain ⟨hstep1, hstep2⟩ := step_serialized w a hver ha.1
      rw [List.foldl_cons]
      exact ih _ hstep2 hstep1 ha.2

/-- Witness for C5 at a concrete input: a two-element selectable list with
an out-of-bounds highlight index 5 restores the last element. -/
theorem c5_highlight_restore_witness :
    ([sampleOption1, sampleOption2] ≠ ([] : List ChoiceOption))
      ∧ ∃ e, restoreHighlight [sampleOption1, sampleOption2] 5 = some e
          ∧ e ∈ [sampleOption1, sampleOption2]
          ∧ (0 ≤ (5 : Int) → (5 : Int) < (([sampleOption1, sampleOption2] : List ChoiceOption).length : Int) →
              ([sampleOption1, sampleOption2] : List ChoiceOption).get? (5 : Int).toNat = some e)
          ∧ ((([sampleOption1, sampleOption2] : List ChoiceOption).length : Int) ≤ (5 : Int) →
              ([sampleOption1, sampleOption2] : List ChoiceOption).getLast? = some e)
          ∧ ((5 : Int) < 0 → ([sampleOption1, sampleOption2] : List ChoiceOption).head? = some e) :=
  ⟨by decide, c5_highlight_restore [sampleOption1, sampleOption2] 5 (by decide)⟩

/-- Witness for C10 at a concrete input: removing a concrete item with the
default (function) remove callback dispatches the remove yet never runs
the callback. -/
theorem c10_remove_callback_never_runs_witness :
    (¬ CallbackVal.fnVal = CallbackVal.noVal)
      ∧ ((removeItemM (.objItem sampleItem) .fnVal (initWidget .text)).1.store.items
            = itemsReducer (initWidget .text).store.items
                (.removeItem sampleItem.id sampleItem.optionId)
          ∧ Eff.dispatched (.removeItem sampleItem.id sampleItem.optionId) ∈
              (removeItemM (.objItem sampleItem) .fnVal (initWidget .text)).2
          ∧ ∀ v : String, Eff.callbackRemove v ∉
              (removeItemM (.objItem sampleItem) .fnVal (initWidget .text)).2) :=
  ⟨by decide, c10_remove_callback_never_runs sampleItem .fnVal (initWidget .text) (by decide)⟩

/-- Witness for C2 at a concrete input: adding "red", "green", "blue" to a
freshly initialised text widget yields items with ids 1, 2, 3. -/
theorem c2_id_monotonicity_witness :
    ((initWidget .text).store.items = [])
      ∧ ((["red", "green", "blue"].foldl addSimple (initWidget .text)).store.items.map Item.id
          = List.range' 1 ["red", "green", "blue"].length) :=
  ⟨by decide, c2_id_monotonicity ["red", "green", "blue"] (initWidget .text) (by decide)⟩

/-- Witness for C9 at a concrete input: adding "b" to a single select
already holding the active item with id 1 leaves only the new item
(id 2) active and dispatches a remove for item 1. -/
theorem c9_select_one_single_active_witness :
    (singleSelectWidget.elementType = ElType.selectOne)
      ∧ (singleSelectWidget.store.items.map Item.id
          = List.range' 1 singleSelectWidget.store.items.length)
      ∧ (((addItemM "b" none (-1) .fnVal singleSelectWidget).1.store.items.filter
              (fun i => i.active)).map Item.id
            = [singleSelectWidget.store.items.length + 1]
          ∧ ∀ i ∈ singleSelectWidget.store.items, i.active = true →
              Eff.dispatched (.removeItem i.id i.optionId) ∈
                (addItemM "b" none (-1) .fnVal singleSelectWidget).2) :=
  ⟨by decide, by decide,
    c9_select_one_single_active "b" none (-1) .fnVal singleSelectWidget rfl (by decide)⟩

/-- Witness for C1 at a concrete input: after adding "red" and "blue" and
removing item 1 on a freshly initialised text widget, the control value
equals the joined active values. -/
theorem c1_round_trip_serialization_witness :
    (versOK (initWidget .text) = true)
      ∧ serializedInv (initWidget .text)
      ∧ ([Action.addItem "red" "red" 1 (-1), .addItem "blue" "blue" 2 (-1),
          .removeItem 1 (-1)].all isItemAction = true)
      ∧ serializedInv
          ([Action.addItem "red" "red" 1 (-1), .addItem "blue" "blue" 2 (-1),
            .removeItem 1 (-1)].foldl dispatchAndRender (initWidget .text)) :=
  ⟨by decide, by decide, by decide,
    c1_round_trip_serialization
      [Action.addItem "red" "red" 1 (-1), .addItem "blue" "blue" 2 (-1),
        .removeItem 1 (-1)]
      (initWidget .text) (by decide) (by decide) (by decide)⟩

end Choices
